import Mathlib

/-
Verification development for the nanobot routing and coordination core.

The definitions below are a shallow embedding of the Python sources:

  nanobot/session/manager.py        (Session, count_trailing_bots, save, load)
  nanobot/agent/routing/group_chat.py (GroupChatFilter.should_respond, llm gate)
  nanobot/agent/loop.py             (AgentLoop private gate, llm gate, main loop)
  nanobot/relay/backend.py          (ProcessedRelayStore)
  nanobot/relay/subscriber.py       (RelaySubscriber handling of one envelope)

Python strings are modelled as Lean String; Python string operations that
do not reduce well in the Lean kernel (strip, upper, substring search) are
re-implemented over List Char with the same semantics.  Optional metadata
keys are modelled as Option fields; dict.get with a default becomes
Option.getD, and the Python truthiness idiom (x or d) on strings becomes
pyOrStr.  Asynchronous provider calls are modelled by their outcome:
an Except value for calls that may raise, or a function from the call
index to the response for the iterated main loop.
-/

namespace Nanobot

/-- Boolean substring test on lists of characters, modelling the Python
expression (pat in s) on strings. -/
def listInfixOf : List Char → List Char → Bool
  | pat, [] => pat.isEmpty
  | pat, c :: rest => pat.isPrefixOf (c :: rest) || listInfixOf pat rest

/-- Python (pat in s) on strings. -/
def substrOf (pat s : String) : Bool :=
  listInfixOf pat.toList s.toList

/-- Python str.strip with no argument: remove leading and trailing
whitespace. -/
def pyStrip (s : String) : String :=
  String.mk (((s.toList.dropWhile Char.isWhitespace).reverse.dropWhile
    Char.isWhitespace).reverse)

/-- Python str.upper. -/
def pyUpper (s : String) : String :=
  String.mk (s.toList.map Char.toUpper)

/-- Python idiom (x or d) for an optional string x: the default d replaces
both a missing value and an empty string. -/
def pyOrStr (o : Option String) (d : String) : String :=
  match o with
  | some s => if s = "" then d else s
  | none => d

/-- One entry of a group-members metadata list, as built by the relay
subscriber and consumed by the group-chat filter: name, type and
description of a peer. -/
structure GroupMemberInfo where
  name : String
  type : String
  description : String
deriving DecidableEq

/-- The recognised metadata keys of an inbound message or relay payload
(nanobot/bus/events.py metadata dict).  Absent keys are none. -/
structure MessageMeta where
  chat_type : Option String
  is_mentioned : Option Bool
  group_policy : Option String
  from_bot : Option Bool
  sender_agent_name : Option String
  group_members : Option (List GroupMemberInfo)
deriving DecidableEq

/-- A metadata map with no keys set, the model of an empty Python dict. -/
def emptyMeta : MessageMeta :=
  { chat_type := none, is_mentioned := none, group_policy := none,
    from_bot := none, sender_agent_name := none, group_members := none }

/-- An inbound message (nanobot/bus/events.py InboundMessage), restricted
to the fields the routing core reads. -/
structure InboundMessage where
  channel : String
  sender_id : String
  chat_id : String
  content : String
  metadata : MessageMeta
deriving DecidableEq

/-- An outbound message (nanobot/bus/events.py OutboundMessage). -/
structure OutboundMessage where
  channel : String
  chat_id : String
  content : String
  metadata : MessageMeta
deriving DecidableEq

/-- One stored session entry (the message dicts built by
Session.add_message in nanobot/session/manager.py).  A missing role key
reads as the empty string in the source, so role is a plain String; the
sender_type and sender keys are genuinely optional. -/
structure SessionMsg where
  role : String
  content : String
  sender_type : Option String
  sender : Option String
deriving DecidableEq

/-- A conversation session: the ordered message list
(nanobot/session/manager.py Session). -/
structure Session where
  messages : List SessionMsg
deriving DecidableEq

/-- Whether an entry is counted by count_trailing_bots: an assistant entry,
or a user entry with sender_type bot (missing sender_type reads as human). -/
def isCountedBot (m : SessionMsg) : Bool :=
  m.role = "assistant" || (m.role = "user" && m.sender_type.getD "human" = "bot")

/-- The scanning loop of count_trailing_bots over the reversed recent
messages: count while entries are bot-counted, stop at the first that is
not. -/
def trailingCount : List SessionMsg → Nat
  | [] => 0
  | m :: rest => if isCountedBot m then 1 + trailingCount rest else 0

/-- Session.count_trailing_bots (nanobot/session/manager.py lines 58-76):
restrict to the last max_scan messages, then count consecutive bot-counted
entries from the end. -/
def Session.count_trailing_bots (s : Session) (max_scan : Nat) : Nat :=
  let recent :=
    if s.messages.length > max_scan then
      s.messages.drop (s.messages.length - max_scan)
    else s.messages
  trailingCount recent.reverse

/-- Routing configuration shared by GroupChatFilter and AgentLoop
(constructor defaults: 8, 3, true). -/
structure RoutingConfig where
  max_bot_reply_depth : Nat
  bot_reply_llm_threshold : Nat
  bot_reply_llm_check : Bool
deriving DecidableEq

/-- The default routing configuration values. -/
def defaultRoutingConfig : RoutingConfig :=
  { max_bot_reply_depth := 8, bot_reply_llm_threshold := 3,
    bot_reply_llm_check := true }

/-- Outcome of the deterministic part of a gate: answer respond, answer
skip, abstain (a None return, legacy filter chain semantics), or defer to
the LLM relevance gate.  deferLLM is the only outcome that leads to a
provider call. -/
inductive GateDecision where
  | respond
  | skip
  | abstain
  | deferLLM
deriving DecidableEq

/-- The incoming-bot depth used by both gates: count_trailing_bots plus one
for the incoming turn itself, or 1 when there is no session. -/
def botDepth (session : Option Session) : Nat :=
  match session with
  | some s => s.count_trailing_bots 30 + 1
  | none => 1

/-- Deterministic part of GroupChatFilter.should_respond
(nanobot/agent/routing/group_chat.py lines 182-219).  Non-group messages
abstain; a bot message is checked against the depth cap, then the mention
requirement, then the llm threshold; a human message responds on open
policy or mention and otherwise defers to the LLM gate. -/
def gcfShouldRespondCore (cfg : RoutingConfig) (meta : MessageMeta)
    (session : Option Session) : GateDecision :=
  if meta.chat_type ≠ some "group" then GateDecision.abstain
  else
    let from_bot := meta.from_bot.getD false
    let policy := meta.group_policy.getD "open"
    let is_mentioned := meta.is_mentioned.getD false
    if from_bot then
      let depth := botDepth session
      if depth ≥ cfg.max_bot_reply_depth then GateDecision.skip
      else if !is_mentioned then GateDecision.skip
      else if is_mentioned && depth ≤ cfg.bot_reply_llm_threshold then
        GateDecision.respond
      else GateDecision.deferLLM
    else
      if policy = "open" || is_mentioned then GateDecision.respond
      else GateDecision.deferLLM

/-- GroupChatFilter.should_respond with the LLM gate outcome supplied as an
oracle: none models the Python None (abstain), some b a definitive answer. -/
def gcfShouldRespond (cfg : RoutingConfig) (meta : MessageMeta)
    (session : Option Session) (llmAnswer : Bool) : Option Bool :=
  match gcfShouldRespondCore cfg meta session with
  | GateDecision.abstain => none
  | GateDecision.respond => some true
  | GateDecision.skip => some false
  | GateDecision.deferLLM => some llmAnswer

/-- Deterministic part of AgentLoop private gate
(nanobot/agent/loop.py lines 154-202).  Non-group messages always respond.
Unlike the group-chat filter, the human branch reads is_mentioned with a
default of True, and the bot branch adds an or-not-bot_reply_llm_check
escape to the threshold test. -/
def loopShouldRespondCore (cfg : RoutingConfig) (meta : MessageMeta)
    (session : Option Session) : GateDecision :=
  if meta.chat_type ≠ some "group" then GateDecision.respond
  else
    let from_bot := meta.from_bot.getD false
    let policy := meta.group_policy.getD "open"
    if from_bot then
      let depth := botDepth session
      if depth ≥ cfg.max_bot_reply_depth then GateDecision.skip
      else if !(meta.is_mentioned.getD false) then GateDecision.skip
      else if (meta.is_mentioned.getD true && depth ≤ cfg.bot_reply_llm_threshold)
          || !cfg.bot_reply_llm_check then GateDecision.respond
      else GateDecision.deferLLM
    else
      if policy = "open" || meta.is_mentioned.getD true then GateDecision.respond
      else GateDecision.deferLLM

/-- AgentLoop private gate with the LLM outcome supplied as an oracle.
The abstain case cannot arise from loopShouldRespondCore and is mapped to
the respond default. -/
def loopShouldRespond (cfg : RoutingConfig) (meta : MessageMeta)
    (session : Option Session) (llmAnswer : Bool) : Bool :=
  match loopShouldRespondCore cfg meta session with
  | GateDecision.abstain => true
  | GateDecision.respond => true
  | GateDecision.skip => false
  | GateDecision.deferLLM => llmAnswer

/-- A tool-call request inside a provider response. -/
structure ToolCall where
  id : String
  name : String
deriving DecidableEq

/-- A provider chat response as the gates and the loop read it: optional
content, optional reasoning content, and the list of tool calls (the
has_tool_calls flag of the response object is tool-call-list nonemptiness,
per the spec: the response contains tool calls). -/
structure ChatResponse where
  content : Option String
  reasoning_content : Option String
  tool_calls : List ToolCall
deriving DecidableEq

/-- Python str.rfind: the highest index at which pat occurs in s, or -1
when it does not occur. -/
def rfindSub (s pat : String) : Int :=
  match ((List.range (s.toList.length + 1)).filter
      (fun i => pat.toList.isPrefixOf (s.toList.drop i))).getLast? with
  | some i => Int.ofNat i
  | none => -1

/-- The YES/NO parse shared by both llm gates: an empty answer yields the
default, otherwise YES must occur and either NO must not occur or the last
YES must come after the last NO. -/
def llmAnswerDecision (answer : String) (default_respond : Bool) : Bool :=
  if answer = "" then default_respond
  else
    substrOf "YES" answer &&
      (!(substrOf "NO" answer) || rfindSub answer "YES" > rfindSub answer "NO")

/-- GroupChatFilter llm relevance gate
(nanobot/agent/routing/group_chat.py lines 252-280), modelled on the
outcome of the provider call: a raised exception is Except.error, a
returned response Except.ok.  The returned Bool is the gate answer; the
function is total, so no exception escapes. -/
def gcfLlmShouldRespond (from_bot : Bool)
    (callResult : Except Unit ChatResponse) : Bool :=
  let default_respond := !from_bot
  match callResult with
  | Except.error _ => default_respond
  | Except.ok response =>
    let content := pyStrip (response.content.getD "")
    let reasoning := pyStrip (response.reasoning_content.getD "")
    let combinedRaw := pyStrip (reasoning ++ "\n" ++ content)
    let combined :=
      if combinedRaw ≠ "" then combinedRaw
      else if content ≠ "" then content
      else reasoning
    let answer := pyUpper combined
    llmAnswerDecision answer default_respond

/-- AgentLoop llm relevance gate (nanobot/agent/loop.py lines 286-307);
the parsing and default logic is the same as in the group-chat filter. -/
def loopLlmShouldRespond (from_bot : Bool)
    (callResult : Except Unit ChatResponse) : Bool :=
  let default_respond := !from_bot
  match callResult with
  | Except.error _ => default_respond
  | Except.ok response =>
    let content := pyStrip (response.content.getD "")
    let reasoning := pyStrip (response.reasoning_content.getD "")
    let combinedRaw := pyStrip (reasoning ++ "\n" ++ content)
    let combined :=
      if combinedRaw ≠ "" then combinedRaw
      else if content ≠ "" then content
      else reasoning
    let answer := pyUpper combined
    llmAnswerDecision answer default_respond

/-- The fallback completion message of AgentLoop (nanobot/agent/loop.py
line 408). -/
def fallbackMessage : String :=
  "I\x27ve completed processing but have no response to give."

/-- The has_tool_calls test on a response. -/
def hasToolCalls (r : ChatResponse) : Bool :=
  !r.tool_calls.isEmpty

/-- The provider and tool iteration of AgentLoop._process_message
(nanobot/agent/loop.py lines 361-405), modelled with the remaining
iteration budget as fuel and the provider abstracted as a function from
the zero-based call index to its response.  Returns the number of provider
calls made and the captured final content (none when the budget ran out
with tool calls every time). -/
def processLoopGo (provider : Nat → ChatResponse) :
    Nat → Nat → Nat × Option String
  | 0, calls => (calls, none)
  | fuel + 1, calls =>
    let response := provider calls
    if hasToolCalls response then processLoopGo provider fuel (calls + 1)
    else (calls + 1, response.content)

/-- The iteration of _process_message started with the full max_iterations
budget and zero calls made. -/
def processLoop (provider : Nat → ChatResponse) (max_iterations : Nat) :
    Nat × Option String :=
  processLoopGo provider max_iterations 0

/-- The tail of AgentLoop._process_message after routing approved
(nanobot/agent/loop.py lines 361-433): run the iteration, substitute the
fallback message when no final content was captured, and emit the outbound
message with the channel, chat id and pass-through metadata of the inbound
message. -/
def processMessageResult (provider : Nat → ChatResponse)
    (max_iterations : Nat) (msg : InboundMessage) : Nat × OutboundMessage :=
  let r := processLoop provider max_iterations
  let final_content := r.2.getD fallbackMessage
  (r.1,
   { channel := msg.channel, chat_id := msg.chat_id,
     content := final_content, metadata := msg.metadata })

/-- One entry of the shared groups registry (groups.json), with the fields
the relay subscriber and the filters read. -/
structure GroupMember where
  name : String
  type : String
  description : String
  feishu_open_id : String
deriving DecidableEq

/-- ProcessedRelayStore (nanobot/relay/backend.py lines 14-27): the ordered
id list models the OrderedDict keys in insertion order, oldest first.  The
subscriber constructs it with the default max_size of 5000. -/
structure ProcessedRelayStore where
  store : List String
  max_size : Nat
deriving DecidableEq

/-- ProcessedRelayStore.add: an assignment into the OrderedDict leaves an
already-present key at its old position and appends a new key at the end;
the while loop then pops items from the front while the size bound is
exceeded. -/
def ProcessedRelayStore.add (s : ProcessedRelayStore)
    (relay_msg_id : String) : ProcessedRelayStore :=
  let grown := if s.store.contains relay_msg_id then s.store
               else s.store ++ [relay_msg_id]
  { s with store :=
      if grown.length > s.max_size then grown.drop (grown.length - s.max_size)
      else grown }

/-- ProcessedRelayStore.contains: membership in the id set; it does not
mutate the store. -/
def ProcessedRelayStore.contains (s : ProcessedRelayStore)
    (relay_msg_id : String) : Bool :=
  s.store.contains relay_msg_id

/-- An operation on the processed-id store. -/
inductive StoreOp where
  | add (relay_msg_id : String)
  | containsQuery (relay_msg_id : String)
deriving DecidableEq

/-- Apply one store operation.  A contains query reads the store and
leaves it unchanged. -/
def applyStoreOp (st : ProcessedRelayStore) (op : StoreOp) :
    ProcessedRelayStore :=
  match op with
  | StoreOp.add id => st.add id
  | StoreOp.containsQuery _ => st

/-- Run a sequence of store operations on a fresh store with the given
max_size. -/
def runOps (max_size : Nat) (ops : List StoreOp) : ProcessedRelayStore :=
  ops.foldl applyStoreOp { store := [], max_size := max_size }

/-- The index of the last add operation carrying the given id in an
operation sequence, if any. -/
def lastAddIndex (ops : List StoreOp) (id : String) : Option Nat :=
  ((List.range ops.length).filter
    (fun i => ops.get? i = some (StoreOp.add id))).getLast?

/-- A relay envelope as parsed from one line of the relay log
(nanobot/relay/backend.py publish builds these keys).  Every field is
optional because _handle_message reads each with payload.get. -/
structure RelayPayload where
  relay_msg_id : Option String
  channel : Option String
  chat_id : Option String
  content : Option String
  sender_bot_open_id : Option String
  sender_agent_name : Option String
  metadata : MessageMeta
deriving DecidableEq

/-- One record appended to the group transcript store. -/
structure TranscriptEntry where
  session_key : String
  role : String
  content : String
  sender : String
deriving DecidableEq

/-- The fixed identity of a relay subscriber: its own bot open id and the
groups registry it reads (modelling a successful load_groups call). -/
structure SubscriberIdentity where
  bot_open_id : String
  groups : List GroupMember
deriving DecidableEq

/-- The mutable state a relay subscriber threads through _handle_message:
the processed-id dedup store and the group transcript it appends to. -/
structure SubscriberState where
  processed : ProcessedRelayStore
  transcript : List TranscriptEntry
deriving DecidableEq

/-- RelaySubscriber._compute_is_mentioned (nanobot/relay/subscriber.py
lines 49-65): find the first groups entry whose feishu open id equals the
current bot open id; the agent is mentioned when the content contains
@name for a nonempty name, or the at-marker with a nonempty bot id. -/
def computeIsMentioned (iden : SubscriberIdentity) (content : String) : Bool :=
  match iden.groups.find? (fun m => m.feishu_open_id = iden.bot_open_id) with
  | none => false
  | some m =>
    (m.name ≠ "" && substrOf ("@" ++ m.name) content) ||
      (iden.bot_open_id ≠ "" && substrOf ("<at id=" ++ iden.bot_open_id) content)

/-- The self-loop guard of _handle_message: the sender bot open id read
from the payload is nonempty and equals the subscriber bot open id. -/
def selfSkip (iden : SubscriberIdentity) (payload : RelayPayload) : Bool :=
  pyOrStr payload.sender_bot_open_id "" ≠ "" &&
    pyOrStr payload.sender_bot_open_id "" = iden.bot_open_id

/-- RelaySubscriber._handle_message (nanobot/relay/subscriber.py lines
67-129): skip on missing id, on a dedup hit, and on a nonempty sender id
equal to the own bot id; otherwise mark processed, append the transcript
record, rebuild the routing metadata (recomputing is_mentioned from the
content) and inject an inbound message.  Returns the new state and the
injected message, if any. -/
def handleMessage (iden : SubscriberIdentity) (st : SubscriberState)
    (payload : RelayPayload) : SubscriberState × Option InboundMessage :=
  let relay_msg_id := pyOrStr payload.relay_msg_id ""
  if relay_msg_id = "" then (st, none)
  else if st.processed.contains relay_msg_id then (st, none)
  else
    let sender_bot_open_id := pyOrStr payload.sender_bot_open_id ""
    if selfSkip iden payload then
      (st, none)
    else
      let processed := st.processed.add relay_msg_id
      let channel := pyOrStr payload.channel "feishu"
      let chat_id := pyOrStr payload.chat_id ""
      let content := pyOrStr payload.content ""
      let sender_agent_name := pyOrStr payload.sender_agent_name "unknown"
      let session_key := channel ++ ":" ++ chat_id
      let transcript := st.transcript ++
        [{ session_key := session_key, role := "assistant",
           content := content, sender := sender_agent_name }]
      let meta0 := payload.metadata
      let chatType := pyOrStr meta0.chat_type "group"
      let group_members :=
        (iden.groups.filter
          (fun m => m.feishu_open_id ≠ "" &&
            m.feishu_open_id ≠ iden.bot_open_id)).map
          (fun m => GroupMemberInfo.mk m.name m.type m.description)
      let newMeta : MessageMeta :=
        { chat_type := some chatType,
          is_mentioned := some (computeIsMentioned iden content),
          group_policy := some (meta0.group_policy.getD "auto"),
          from_bot := some true,
          sender_agent_name := some sender_agent_name,
          group_members := some group_members }
      let reply_to := if chatType = "group" then chat_id else sender_bot_open_id
      ({ processed := processed, transcript := transcript },
       some { channel := channel, sender_id := sender_bot_open_id,
              chat_id := reply_to, content := content, metadata := newMeta })

/-- Handle a list of relay envelopes in order, returning the final state
and the concatenated list of injected inbound messages. -/
def runAll (iden : SubscriberIdentity) :
    SubscriberState → List RelayPayload → SubscriberState × List InboundMessage
  | st, [] => (st, [])
  | st, p :: rest =>
    let r := handleMessage iden st p
    let tail := runAll iden r.1 rest
    (tail.1, r.2.toList ++ tail.2)

/-- The initial state of a freshly constructed subscriber: an empty dedup
store with the default max_size of 5000 and an empty transcript. -/
def initialSubscriberState : SubscriberState :=
  { processed := { store := [], max_size := 5000 }, transcript := [] }

/-- A JSON value, the shape of the records SessionManager writes and reads.
The save and load pipeline is modelled at the record level: json.dumps
emits one non-blank line per record and json.loads parses it back, so a
session whose records survive JSON serialization unchanged round-trips
through the file as this list of values. -/
inductive JValue where
  | null
  | bool (b : Bool)
  | num (n : Int)
  | str (s : String)
  | arr (items : List JValue)
  | obj (fields : List (String × JValue))

/-- Dict lookup on a JSON value: some value for a key of an object, none
otherwise (Python dict.get with default None on the parsed record). -/
def jget (v : JValue) (key : String) : Option JValue :=
  match v with
  | JValue.obj fields => (fields.find? (fun kv => kv.1 = key)).map (fun kv => kv.2)
  | _ => none

/-- The test _load applies to each record: data.get with key _type compared
to the string metadata. -/
def isMetadataRecord (v : JValue) : Bool :=
  match jget v "_type" with
  | some (JValue.str s) => s = "metadata"
  | _ => false

/-- Whether a JSON value is an object (a Python dict); message records must
be dicts for _load to read them with .get. -/
def JValue.isObj : JValue → Bool
  | JValue.obj _ => true
  | _ => false

/-- A session as SessionManager.save sees it: the message records, the
metadata dict, and the two timestamp strings written into the header. -/
structure StoredSession where
  messages : List JValue
  session_metadata : List (String × JValue)
  created_at : String
  updated_at : String

/-- SessionManager.save (nanobot/session/manager.py lines 202-220) at the
record level: one metadata header record, then one record per message. -/
def saveRecords (s : StoredSession) : List JValue :=
  JValue.obj
    [("_type", JValue.str "metadata"),
     ("created_at", JValue.str s.created_at),
     ("updated_at", JValue.str s.updated_at),
     ("metadata", JValue.obj s.session_metadata)]
  :: s.messages

/-- SessionManager._load (nanobot/session/manager.py lines 166-200) at the
record level: scan the records in order; a record whose _type is metadata
replaces the metadata (read with a default of the empty dict), every other
record is appended to the message list. -/
def loadStep (acc : List JValue × JValue) (data : JValue) :
    List JValue × JValue :=
  if isMetadataRecord data then
    (acc.1, (jget data "metadata").getD (JValue.obj []))
  else (acc.1 ++ [data], acc.2)

/-- The fold of _load over the records of the file, starting from an empty
message list and an empty metadata dict. -/
def loadRecords (records : List JValue) : List JValue × JValue :=
  records.foldl loadStep ([], JValue.obj [])

/-- Concrete instantiation of the depth-cap theorem: a session whose last
entry is an assistant turn, a cap of 2, and a mentioned bot message. -/
def c1Meta : MessageMeta :=
  { emptyMeta with
    chat_type := some "group"
    from_bot := some true
    is_mentioned := some true }

/-- A session ending in one assistant turn. -/
def c1Session : Session :=
  { messages := [{ role := "assistant", content := "ok",
                   sender_type := none, sender := none }] }

/-- A routing configuration with max_bot_reply_depth 2. -/
def c1Cfg : RoutingConfig :=
  { max_bot_reply_depth := 2, bot_reply_llm_threshold := 3,
    bot_reply_llm_check := true }

/-- C2 counterexample: a group message that is not from a bot, with
group_policy mention and no is_mentioned key.  The claim says both gate
implementations fall through to the LLM gate; GroupChatFilter does, but
the AgentLoop private gate reads is_mentioned with a default of True and
returns respond without consulting the LLM gate. -/
def c2Meta : MessageMeta :=
  { emptyMeta with chat_type := some "group", group_policy := some "mention" }

/-- Witness for the amended mention-policy theorem: with policy mention and
an explicit is_mentioned false both gates defer to the LLM gate. -/
def c2WitnessMeta : MessageMeta :=
  { emptyMeta with
    chat_type := some "group"
    group_policy := some "mention"
    is_mentioned := some false }

/-- C3 counterexample: an envelope whose sender_bot_open_id is the empty
string handled by a subscriber whose own bot open id is also empty.  The
claim says no injection, no transcript append and no dedup insertion; the
guard in _handle_message requires a nonempty sender id, so the envelope is
processed: it is injected, appended to the transcript and marked
processed. -/
def c3Iden : SubscriberIdentity :=
  { bot_open_id := "", groups := [] }

/-- The counterexample envelope with an empty sender bot open id. -/
def c3Payload : RelayPayload :=
  { relay_msg_id := some "m1", channel := some "feishu",
    chat_id := some "c1", content := some "hi",
    sender_bot_open_id := some "", sender_agent_name := some "peer",
    metadata := emptyMeta }

/-- Witness for the amended self-skip theorem: a matching nonempty sender
id is dropped without any state change. -/
def c3WitnessIden : SubscriberIdentity :=
  { bot_open_id := "botA", groups := [] }

/-- The witness envelope, sent by the subscriber itself. -/
def c3WitnessPayload : RelayPayload :=
  { relay_msg_id := some "m2", channel := some "feishu",
    chat_id := some "c1", content := some "hello",
    sender_bot_open_id := some "botA", sender_agent_name := some "A",
    metadata := emptyMeta }

/-- Witness identity for the noninterference theorem: agent B with a
two-entry groups registry. -/
def c4Iden : SubscriberIdentity :=
  { bot_open_id := "botB",
    groups := [{ name := "B", type := "bot", description := "helper",
                 feishu_open_id := "botB" },
               { name := "A", type := "bot", description := "",
                 feishu_open_id := "botA" }] }

/-- First witness envelope: metadata claims is_mentioned true. -/
def c4P1 : RelayPayload :=
  { relay_msg_id := some "r1", channel := some "feishu",
    chat_id := some "g1", content := some "ping @B now",
    sender_bot_open_id := some "botA", sender_agent_name := some "A",
    metadata := { emptyMeta with is_mentioned := some true } }

/-- Second witness envelope: same content, metadata claims is_mentioned
false. -/
def c4P2 : RelayPayload :=
  { relay_msg_id := some "r1", channel := some "feishu",
    chat_id := some "g1", content := some "ping @B now",
    sender_bot_open_id := some "botA", sender_agent_name := some "A",
    metadata := { emptyMeta with is_mentioned := some false } }

/-- A placeholder inbound message for Option.getD. -/
def blankInbound : InboundMessage :=
  { channel := "", sender_id := "", chat_id := "", content := "",
    metadata := emptyMeta }

/-- The message injected for the first witness envelope. -/
def c4M1 : InboundMessage :=
  ((handleMessage c4Iden initialSubscriberState c4P1).2).getD blankInbound

/-- The message injected for the second witness envelope. -/
def c4M2 : InboundMessage :=
  ((handleMessage c4Iden initialSubscriberState c4P2).2).getD blankInbound

/-- C6 counterexample entries: a human user turn. -/
def c6Human : SessionMsg :=
  { role := "user", content := "hi", sender_type := none, sender := none }

/-- C6 counterexample entries: an assistant turn. -/
def c6Assistant : SessionMsg :=
  { role := "assistant", content := "ok", sender_type := none, sender := none }

/-- An empty provider response for the llm-gate witness. -/
def c7EmptyResponse : ChatResponse :=
  { content := some "  ", reasoning_content := none, tool_calls := [] }

/-- A provider that always requests one tool call. -/
def c8Provider : Nat → ChatResponse := fun _ =>
  { content := some "working", reasoning_content := none,
    tool_calls := [{ id := "t1", name := "exec" }] }

/-- The inbound message for the iteration-cap witness. -/
def c8Msg : InboundMessage :=
  { channel := "feishu", sender_id := "u1", chat_id := "c1",
    content := "do it", metadata := emptyMeta }

/-- A store at its bound for the eviction witness. -/
def c9FullStore : ProcessedRelayStore :=
  { store := ["p", "q"], max_size := 2 }

/-- The stored session for the round-trip witness. -/
def c10Session : StoredSession :=
  { messages :=
      [JValue.obj [("role", JValue.str "user"),
                   ("content", JValue.str "hi")],
       JValue.obj [("role", JValue.str "assistant"),
                   ("content", JValue.str "hello")]],
    session_metadata := [("topic", JValue.str "demo")],
    created_at := "2026-01-01T00:00:00",
    updated_at := "2026-01-01T00:00:01" }

/-- Subscriber identity for the replay witness. -/
def c5WitnessIden : SubscriberIdentity :=
  { bot_open_id := "self", groups := [] }

/-- Envelopes for the replay witness. -/
def c5WitnessEnvs : List RelayPayload :=
  [{ relay_msg_id := some "e1", channel := some "feishu",
     chat_id := some "c", content := some "one",
     sender_bot_open_id := some "other", sender_agent_name := some "peer",
     metadata := emptyMeta },
   { relay_msg_id := some "e2", channel := some "feishu",
     chat_id := some "c", content := some "two",
     sender_bot_open_id := some "other", sender_agent_name := some "peer",
     metadata := emptyMeta }]

/-- Distinct relay ids for the counterexample run: the id of envelope i is
a string of i+1 letters. -/
def cexId (i : Nat) : String :=
  String.mk (List.replicate (i + 1) 'a')

/-- The counterexample envelopes: fresh id per index, constant peer
sender. -/
def cexPayload (i : Nat) : RelayPayload :=
  { relay_msg_id := some (cexId i), channel := some "feishu",
    chat_id := some "c", content := some "hello",
    sender_bot_open_id := some "other", sender_agent_name := some "peer",
    metadata := emptyMeta }

/-- The counterexample subscriber identity. -/
def cexIden : SubscriberIdentity :=
  { bot_open_id := "self", groups := [] }

/-- One more envelope than the dedup store bound. -/
def cexEnvs : List RelayPayload :=
  (List.range 5001).map cexPayload

/-
Theorems.
-/

/-- C1: for every inbound group message with from_bot true and any session,
if count_trailing_bots plus one reaches max_bot_reply_depth, both gate
implementations (GroupChatFilter.should_respond and the AgentLoop private
gate) decide skip, regardless of is_mentioned, and without a provider
call: the deterministic core never reaches the deferLLM outcome, so the
full decision is False for every possible LLM answer. -/
theorem depth_cap_always_skips (cfg : RoutingConfig) (meta : MessageMeta)
    (s : Session)
    (hgroup : meta.chat_type = some "group")
    (hbot : meta.from_bot = some true)
    (hdepth : s.count_trailing_bots 30 + 1 ≥ cfg.max_bot_reply_depth) :
    gcfShouldRespondCore cfg meta (some s) = GateDecision.skip ∧
    loopShouldRespondCore cfg meta (some s) = GateDecision.skip ∧
    gcfShouldRespond cfg meta (some s) true = some false ∧
    gcfShouldRespond cfg meta (some s) false = some false ∧
    loopShouldRespond cfg meta (some s) true = false ∧
    loopShouldRespond cfg meta (some s) false = false := by
  have hd : botDepth (some s) ≥ cfg.max_bot_reply_depth := by
    simpa [botDepth] using hdepth
  have hgcf : gcfShouldRespondCore cfg meta (some s) = GateDecision.skip := by
    simp [gcfShouldRespondCore, hgroup, hbot, hd]
  have hloop : loopShouldRespondCore cfg meta (some s) = GateDecision.skip := by
    simp [loopShouldRespondCore, hgroup, hbot, hd]
  refine ⟨hgcf, hloop, ?_, ?_, ?_, ?_⟩ <;>
    simp [gcfShouldRespond, loopShouldRespond, hgcf, hloop]

/-- Witness for the depth-cap theorem at a concrete input. -/
theorem depth_cap_always_skips_witness :
    gcfShouldRespondCore c1Cfg c1Meta (some c1Session) = GateDecision.skip ∧
    loopShouldRespondCore c1Cfg c1Meta (some c1Session) = GateDecision.skip :=
  ⟨(depth_cap_always_skips c1Cfg c1Meta c1Session rfl rfl (by decide)).1,
   (depth_cap_always_skips c1Cfg c1Meta c1Session rfl rfl (by decide)).2.1⟩

/-- The AgentLoop gate answers respond, not deferLLM, on a group message
with policy mention and the is_mentioned key absent, falsifying the claim
for that implementation (the group-chat filter defers on the same input). -/
theorem mention_policy_counterexample :
    c2Meta.is_mentioned = none ∧
    c2Meta.from_bot = none ∧
    loopShouldRespondCore defaultRoutingConfig c2Meta none =
      GateDecision.respond ∧
    loopShouldRespondCore defaultRoutingConfig c2Meta none ≠
      GateDecision.deferLLM ∧
    gcfShouldRespondCore defaultRoutingConfig c2Meta none =
      GateDecision.deferLLM := by
  decide

/-- C2 amended: for a group message not from a bot, GroupChatFilter reads
is_mentioned with a default of false, answers respond without a provider
call when the policy is open or the message explicitly mentions the agent,
and falls through to the LLM gate under policy mention without an explicit
is_mentioned true.  The AgentLoop private gate agrees on the respond
cases and on deferring under policy mention with an explicit is_mentioned
false, but reads is_mentioned with a default of True in the human branch,
so with policy mention and the key absent it answers respond instead of
deferring. -/
theorem mention_policy_amended (cfg : RoutingConfig) (meta : MessageMeta)
    (session : Option Session)
    (hgroup : meta.chat_type = some "group")
    (hnotbot : meta.from_bot.getD false = false) :
    (meta.group_policy.getD "open" = "open" ∨ meta.is_mentioned = some true →
      gcfShouldRespondCore cfg meta session = GateDecision.respond ∧
      loopShouldRespondCore cfg meta session = GateDecision.respond) ∧
    (meta.group_policy = some "mention" → meta.is_mentioned ≠ some true →
      gcfShouldRespondCore cfg meta session = GateDecision.deferLLM) ∧
    (meta.group_policy = some "mention" → meta.is_mentioned = none →
      loopShouldRespondCore cfg meta session = GateDecision.respond) ∧
    (meta.group_policy = some "mention" → meta.is_mentioned = some false →
      loopShouldRespondCore cfg meta session = GateDecision.deferLLM) := by
  refine ⟨?_, ?_, ?_, ?_⟩
  · rintro (hp | hm)
    · constructor <;> simp [gcfShouldRespondCore, loopShouldRespondCore,
        hgroup, hnotbot, hp]
    · constructor <;> simp [gcfShouldRespondCore, loopShouldRespondCore,
        hgroup, hnotbot, hm]
  · intro hp hm
    have hfalse : meta.is_mentioned.getD false = false := by
      cases hmv : meta.is_mentioned with
      | none => rfl
      | some b =>
        cases b with
        | true => exact absurd hmv hm
        | false => rfl
    simp [gcfShouldRespondCore, hgroup, hnotbot, hp, hfalse]
  · intro hp hm
    simp [loopShouldRespondCore, hgroup, hnotbot, hp, hm]
  · intro hp hm
    simp [loopShouldRespondCore, hgroup, hnotbot, hp, hm]

/-- Concrete instantiation of the amended mention-policy theorem. -/
theorem mention_policy_amended_witness :
    gcfShouldRespondCore defaultRoutingConfig c2WitnessMeta none =
      GateDecision.deferLLM ∧
    loopShouldRespondCore defaultRoutingConfig c2WitnessMeta none =
      GateDecision.deferLLM :=
  ⟨(mention_policy_amended defaultRoutingConfig c2WitnessMeta none rfl
      rfl).2.1 rfl (by decide),
   (mention_policy_amended defaultRoutingConfig c2WitnessMeta none rfl
      rfl).2.2.2 rfl (by decide)⟩

/-- Handling the counterexample envelope injects an inbound message,
appends a transcript record and inserts the id into the dedup store, even
though the sender id equals the subscriber id (both empty). -/
theorem relay_self_skip_counterexample :
    c3Payload.sender_bot_open_id = some "" ∧
    c3Iden.bot_open_id = "" ∧
    ((handleMessage c3Iden initialSubscriberState c3Payload).2).isSome = true ∧
    (handleMessage c3Iden initialSubscriberState
      c3Payload).1.processed.store = ["m1"] ∧
    (handleMessage c3Iden initialSubscriberState c3Payload).1.transcript ≠
      [] := by
  decide

/-- C3 amended: for every relay envelope whose sender_bot_open_id is
nonempty and equals the subscriber bot open id, _handle_message leaves the
state unchanged (no transcript append, no dedup insertion) and injects
nothing.  When the two ids are both empty the guard does not fire and the
envelope is processed normally. -/
theorem relay_self_skip_amended (iden : SubscriberIdentity)
    (st : SubscriberState) (p : RelayPayload)
    (hne : pyOrStr p.sender_bot_open_id "" ≠ "")
    (heq : pyOrStr p.sender_bot_open_id "" = iden.bot_open_id) :
    handleMessage iden st p = (st, none) := by
  simp only [handleMessage]
  split
  · rfl
  · split
    · rfl
    · rw [heq] at hne
      simp [selfSkip, hne, heq]

/-- Concrete instantiation of the amended self-skip theorem. -/
theorem relay_self_skip_amended_witness :
    handleMessage c3WitnessIden initialSubscriberState c3WitnessPayload =
      (initialSubscriberState, none) :=
  relay_self_skip_amended c3WitnessIden initialSubscriberState
    c3WitnessPayload (by decide) (by decide)

/-- Every injected inbound message carries is_mentioned recomputed from the
envelope content and the subscriber identity alone. -/
theorem handleMessage_is_mentioned_eq (iden : SubscriberIdentity)
    (st : SubscriberState) (p : RelayPayload) (m : InboundMessage)
    (h : (handleMessage iden st p).2 = some m) :
    m.metadata.is_mentioned =
      some (computeIsMentioned iden (pyOrStr p.content "")) := by
  simp only [handleMessage] at h
  split at h
  · exact absurd h (by simp)
  · split at h
    · exact absurd h (by simp)
    · split at h
      · exact absurd h (by simp)
      · simp only [Option.some.injEq] at h
        rw [← h]

/-- C4: two-run noninterference of the recomputed mention flag.  Two
envelopes that agree on content, handled by subscribers with the same bot
open id and groups registry but with arbitrarily different envelope
metadata and arbitrarily different subscriber states, inject messages with
the same is_mentioned value. -/
theorem mention_recomputed_noninterference (iden1 iden2 : SubscriberIdentity)
    (st1 st2 : SubscriberState) (p1 p2 : RelayPayload)
    (m1 m2 : InboundMessage)
    (hbot : iden1.bot_open_id = iden2.bot_open_id)
    (hgroups : iden1.groups = iden2.groups)
    (hcontent : p1.content = p2.content)
    (h1 : (handleMessage iden1 st1 p1).2 = some m1)
    (h2 : (handleMessage iden2 st2 p2).2 = some m2) :
    m1.metadata.is_mentioned = m2.metadata.is_mentioned := by
  have hiden : iden1 = iden2 := by
    cases iden1
    cases iden2
    simp_all
  rw [handleMessage_is_mentioned_eq iden1 st1 p1 m1 h1,
    handleMessage_is_mentioned_eq iden2 st2 p2 m2 h2, hiden, hcontent]

/-- Concrete instantiation of the noninterference theorem: the two
envelope metadata maps disagree on is_mentioned, yet the injected messages
carry the same recomputed flag. -/
theorem mention_recomputed_noninterference_witness :
    c4P1.metadata ≠ c4P2.metadata ∧
    c4M1.metadata.is_mentioned = c4M2.metadata.is_mentioned :=
  ⟨by decide,
   mention_recomputed_noninterference c4Iden c4Iden initialSubscriberState
     initialSubscriberState c4P1 c4P2 c4M1 c4M2 rfl rfl rfl (by decide)
     (by decide)⟩

/-- The scanning loop counts every entry of an all-bot list. -/
theorem trailingCount_all_bot (l : List SessionMsg)
    (h : ∀ x ∈ l, isCountedBot x = true) : trailingCount l = l.length := by
  induction l with
  | nil => rfl
  | cons m rest ih =>
    have hm : isCountedBot m = true := h m (by simp)
    have hr := ih (fun x hx => h x (by simp [hx]))
    simp [trailingCount, hm, hr]
    omega

/-- The scanning loop stops at the first non-bot entry. -/
theorem trailingCount_stops (l : List SessionMsg) (h0 : SessionMsg)
    (rest : List SessionMsg)
    (hl : ∀ x ∈ l, isCountedBot x = true) (hh : isCountedBot h0 = false) :
    trailingCount (l ++ h0 :: rest) = l.length := by
  induction l with
  | nil => simp [trailingCount, hh]
  | cons m tail ih =>
    have hm : isCountedBot m = true := hl m (by simp)
    have ht := ih (fun x hx => hl x (by simp [hx]))
    simp [trailingCount, hm, ht]
    omega

/-- Appending a single non-bot entry resets the trailing count to zero. -/
theorem count_reset_after_append (msgs : List SessionMsg) (m : SessionMsg)
    (hm : isCountedBot m = false) :
    Session.count_trailing_bots ⟨msgs ++ [m]⟩ 30 = 0 := by
  simp only [Session.count_trailing_bots]
  by_cases hlen : (msgs ++ [m]).length > 30
  · simp only [hlen, if_true]
    rw [List.drop_append_eq_append_drop]
    have hz : (msgs ++ [m]).length - 30 - msgs.length = 0 := by
      simp only [List.length_append, List.length_cons, List.length_nil]
      omega
    rw [hz]
    simp [List.reverse_append, trailingCount, hm]
  · simp only [hlen, if_false]
    simp [List.reverse_append, trailingCount, hm]

/-- C6 counterexample: a session whose tail segment has 31 bot-counted
entries after a human entry.  The claim says count_trailing_bots returns
the segment length (31), but the scan only looks at the last 30 messages
(max_scan), so it returns 30. -/
theorem trailing_bot_count_counterexample :
    isCountedBot c6Human = false ∧
    (List.replicate 31 c6Assistant).all isCountedBot = true ∧
    (List.replicate 31 c6Assistant).length = 31 ∧
    Session.count_trailing_bots ⟨c6Human :: List.replicate 31 c6Assistant⟩
      30 = 30 := by
  decide

/-- C6 amended: for a session whose message list is pre ++ h :: seg with h
not bot-counted and every entry of seg bot-counted (assistant turns and
user turns with sender_type bot), count_trailing_bots with the default
max_scan of 30 returns min seg.length 30 — the segment length capped by
the scan window.  Appending a user entry whose sender_type is human,
absent or system (anything but bot) resets the count to zero, the length
of the segment after that entry. -/
theorem trailing_bot_count_amended (pre : List SessionMsg)
    (h0 : SessionMsg) (seg : List SessionMsg)
    (hh : isCountedBot h0 = false)
    (hseg : ∀ x ∈ seg, isCountedBot x = true) :
    Session.count_trailing_bots ⟨pre ++ h0 :: seg⟩ 30 =
      min seg.length 30 ∧
    (∀ (s : Session) (m : SessionMsg), m.role = "user" →
      m.sender_type.getD "human" ≠ "bot" →
      Session.count_trailing_bots ⟨s.messages ++ [m]⟩ 30 = 0) := by
  constructor
  · have hrevseg : ∀ x ∈ seg.reverse, isCountedBot x = true := by
      intro x hx
      exact hseg x (List.mem_reverse.mp hx)
    simp only [Session.count_trailing_bots]
    by_cases hlen : (pre ++ h0 :: seg).length > 30
    · simp only [hlen, if_true]
      by_cases hsl : seg.length ≥ 30
      · have hdrop :
            (pre ++ h0 :: seg).drop ((pre ++ h0 :: seg).length - 30) =
              seg.drop (seg.length - 30) := by
          rw [List.drop_append_eq_append_drop]
          have h1 : pre.drop ((pre ++ h0 :: seg).length - 30) = [] := by
            apply List.drop_eq_nil_of_le
            simp only [List.length_append, List.length_cons]
            omega
          have h2 : (pre ++ h0 :: seg).length - 30 - pre.length =
              (seg.length - 30) + 1 := by
            simp only [List.length_append, List.length_cons]
            omega
          rw [h1, h2]
          simp
        rw [hdrop]
        have hallbot : ∀ x ∈ (seg.drop (seg.length - 30)).reverse,
            isCountedBot x = true := by
          intro x hx
          exact hseg x (List.drop_subset _ _ (List.mem_reverse.mp hx))
        rw [trailingCount_all_bot _ hallbot]
        simp only [List.length_reverse, List.length_drop]
        omega
      · have hd : (pre ++ h0 :: seg).length - 30 ≤ pre.length := by
          simp only [List.length_append, List.length_cons]
          omega
        have hdrop :
            (pre ++ h0 :: seg).drop ((pre ++ h0 :: seg).length - 30) =
              pre.drop ((pre ++ h0 :: seg).length - 30) ++ h0 :: seg := by
          rw [List.drop_append_eq_append_drop]
          have hz : (pre ++ h0 :: seg).length - 30 - pre.length = 0 := by
            omega
          rw [hz]
          simp
        rw [hdrop]
        rw [List.reverse_append, List.reverse_cons, List.append_assoc,
          List.singleton_append]
        rw [trailingCount_stops seg.reverse h0 _ hrevseg hh]
        simp only [List.length_reverse]
        omega
    · simp only [hlen, if_false]
      rw [List.reverse_append, List.reverse_cons, List.append_assoc,
        List.singleton_append]
      rw [trailingCount_stops seg.reverse h0 _ hrevseg hh]
      have : (pre ++ h0 :: seg).length ≤ 30 := by omega
      simp only [List.length_append, List.length_cons] at this
      simp only [List.length_reverse]
      omega
  · intro s m hrole hst
    apply count_reset_after_append
    simp [isCountedBot, hrole, hst]

/-- Witness for the amended trailing-bot-count theorem: a human turn
followed by two assistant turns counts 2, and appending a human user turn
resets the count to zero. -/
theorem trailing_bot_count_amended_witness :
    Session.count_trailing_bots ⟨[] ++ c6Human ::
      [c6Assistant, c6Assistant]⟩ 30 =
      min (List.length [c6Assistant, c6Assistant]) 30 ∧
    Session.count_trailing_bots
      ⟨(Session.mk [c6Assistant]).messages ++ [c6Human]⟩ 30 = 0 :=
  ⟨(trailing_bot_count_amended [] c6Human [c6Assistant, c6Assistant]
      (by decide) (by decide)).1,
   (trailing_bot_count_amended [] c6Human [] (by decide) (by decide)).2
     (Session.mk [c6Assistant]) c6Human rfl (by decide)⟩

/-- C7: both llm relevance gates return the safe default, the negation of
from_bot, when the provider call raises (Except.error) and when the
returned content and reasoning are both empty after stripping; the gate
functions are total, so no exception escapes them. -/
theorem llm_gate_default_not_from_bot (from_bot : Bool) (r : ChatResponse)
    (hc : pyStrip (r.content.getD "") = "")
    (hr : pyStrip (r.reasoning_content.getD "") = "") :
    gcfLlmShouldRespond from_bot (Except.error ()) = !from_bot ∧
    loopLlmShouldRespond from_bot (Except.error ()) = !from_bot ∧
    gcfLlmShouldRespond from_bot (Except.ok r) = !from_bot ∧
    loopLlmShouldRespond from_bot (Except.ok r) = !from_bot := by
  refine ⟨rfl, rfl, ?_, ?_⟩
  · simp only [gcfLlmShouldRespond, hc, hr]
    rfl
  · simp only [loopLlmShouldRespond, hc, hr]
    rfl

/-- Concrete instantiation of the llm-gate default theorem: a whitespace
answer from the provider yields skip for a bot message and respond for a
human message, as does a raised exception. -/
theorem llm_gate_default_not_from_bot_witness :
    gcfLlmShouldRespond true (Except.error ()) = false ∧
    gcfLlmShouldRespond true (Except.ok c7EmptyResponse) = false ∧
    loopLlmShouldRespond false (Except.ok c7EmptyResponse) = true :=
  ⟨(llm_gate_default_not_from_bot true c7EmptyResponse (by decide)
      (by decide)).1,
   (llm_gate_default_not_from_bot true c7EmptyResponse (by decide)
      (by decide)).2.2.1,
   (llm_gate_default_not_from_bot false c7EmptyResponse (by decide)
      (by decide)).2.2.2⟩

/-- When every provider response up to the budget contains tool calls, the
iteration makes exactly one call per unit of fuel and captures no final
content. -/
theorem processLoopGo_all_tools (provider : Nat → ChatResponse) :
    ∀ (fuel calls : Nat),
    (∀ i, calls ≤ i → i < calls + fuel → hasToolCalls (provider i) = true) →
    processLoopGo provider fuel calls = (calls + fuel, none) := by
  intro fuel
  induction fuel with
  | zero =>
    intro calls _
    simp [processLoopGo]
  | succ n ih =>
    intro calls h
    have hc : hasToolCalls (provider calls) = true :=
      h calls (Nat.le_refl calls) (by omega)
    have ht := ih (calls + 1) (fun i h1 h2 => h i (by omega) (by omega))
    simp only [processLoopGo, hc, if_true, ht]
    congr 1
    omega

/-- C8: if the provider requests tool calls on every iteration,
_process_message makes exactly max_iterations provider calls and emits an
outbound message to the inbound channel and chat id whose content is the
fallback completion message. -/
theorem iteration_cap_fallback (provider : Nat → ChatResponse)
    (max_iterations : Nat) (msg : InboundMessage)
    (h : ∀ i, i < max_iterations → hasToolCalls (provider i) = true) :
    processMessageResult provider max_iterations msg =
      (max_iterations,
       { channel := msg.channel, chat_id := msg.chat_id,
         content := fallbackMessage, metadata := msg.metadata }) := by
  have hg := processLoopGo_all_tools provider max_iterations 0
    (fun i _ h2 => h i (by omega))
  simp [processMessageResult, processLoop, hg]

/-- Concrete instantiation of the iteration-cap theorem with a budget of
three iterations. -/
theorem iteration_cap_fallback_witness :
    processMessageResult c8Provider 3 c8Msg =
      (3, { channel := "feishu", chat_id := "c1",
            content := fallbackMessage, metadata := emptyMeta }) :=
  iteration_cap_fallback c8Provider 3 c8Msg (by decide)

/-- Adding to a store within its bound keeps it within its bound. -/
theorem add_length_le (s : ProcessedRelayStore) (id : String)
    (h : s.store.length ≤ s.max_size) :
    (s.add id).store.length ≤ s.max_size := by
  simp only [ProcessedRelayStore.add]
  by_cases hg :
      (if s.store.contains id then s.store else s.store ++ [id]).length >
        s.max_size
  · simp only [hg, if_true, List.length_drop]
    omega
  · simp only [hg, if_false]
    omega

/-- Folding store operations preserves the max_size field and the size
bound. -/
theorem runOps_fold_invariant (ops : List StoreOp) :
    ∀ (s : ProcessedRelayStore), s.store.length ≤ s.max_size →
      (ops.foldl applyStoreOp s).max_size = s.max_size ∧
      (ops.foldl applyStoreOp s).store.length ≤ s.max_size := by
  induction ops with
  | nil =>
    intro s h
    exact ⟨rfl, h⟩
  | cons op rest ih =>
    intro s h
    cases op with
    | add id =>
      have hm : (s.add id).max_size = s.max_size := rfl
      obtain ⟨hA, hB⟩ := ih (s.add id) (by rw [hm]; exact add_length_le s id h)
      refine ⟨?_, ?_⟩
      · simpa [applyStoreOp, hm] using hA
      · simpa [applyStoreOp, hm] using hB
    | containsQuery id =>
      simpa [applyStoreOp] using ih s h

/-- C9 counterexample: with max_size 2, the add sequence A, B, A, C evicts
A even though the latest add of A (operation index 2) is more recent than
the latest add of the retained B (operation index 1): a re-add of a
present id does not refresh its position, so eviction is by first
insertion order, not by most recent add. -/
theorem processed_store_eviction_counterexample :
    (runOps 2 [StoreOp.add "A", StoreOp.add "B", StoreOp.add "A",
      StoreOp.add "C"]).store = ["B", "C"] ∧
    lastAddIndex [StoreOp.add "A", StoreOp.add "B", StoreOp.add "A",
      StoreOp.add "C"] "A" = some 2 ∧
    lastAddIndex [StoreOp.add "A", StoreOp.add "B", StoreOp.add "A",
      StoreOp.add "C"] "B" = some 1 ∧
    ¬ "A" ∈ (runOps 2 [StoreOp.add "A", StoreOp.add "B", StoreOp.add "A",
      StoreOp.add "C"]).store ∧
    "B" ∈ (runOps 2 [StoreOp.add "A", StoreOp.add "B", StoreOp.add "A",
      StoreOp.add "C"]).store := by
  decide

/-- C9 amended: after any sequence of add and contains operations a store
with bound m holds at most m ids, and one add on an in-bound store behaves
as follows: a present id leaves the store unchanged (its position is not
refreshed), a new id is appended, and when the store is full the evicted
id is the front element — the earliest-inserted id, which need not be the
least recently added one. -/
theorem processed_store_bound_and_fifo (max_size : Nat) (ops : List StoreOp)
    (s : ProcessedRelayStore) (id : String)
    (hmax : s.max_size = max_size)
    (hlen : s.store.length ≤ max_size)
    (hpos : 0 < max_size) :
    (runOps max_size ops).store.length ≤ max_size ∧
    (s.add id).store =
      (if s.store.contains id then s.store
       else if s.store.length < max_size then s.store ++ [id]
       else s.store.drop 1 ++ [id]) := by
  constructor
  · exact (runOps_fold_invariant ops { store := [], max_size := max_size }
      (by simp)).2
  · cases hc : s.store.contains id with
    | true =>
      have hng : ¬ s.store.length > s.max_size := by omega
      simp only [ProcessedRelayStore.add, hc]
      simp [hng]
    | false =>
      simp only [ProcessedRelayStore.add, hc]
      by_cases hlt : s.store.length < max_size
      · have hng : ¬ s.max_size < s.store.length + 1 := by omega
        simp [hng, hlt]
      · have hg : s.max_size < s.store.length + 1 := by omega
        have hdrop :
            List.drop (s.store.length + 1 - s.max_size) (s.store ++ [id]) =
              List.drop 1 s.store ++ [id] := by
          have h1 : s.store.length + 1 - s.max_size = 1 := by omega
          rw [h1, List.drop_append_eq_append_drop]
          have h2 : 1 - s.store.length = 0 := by omega
          rw [h2]
          simp
        simp [hg, hlt, hdrop]

/-- Concrete instantiation of the bound-and-eviction theorem: running four
operations stays within the bound, and adding a fresh id to a full store
drops the front id. -/
theorem processed_store_bound_and_fifo_witness :
    (runOps 2 [StoreOp.add "x", StoreOp.containsQuery "x",
      StoreOp.add "y", StoreOp.add "z"]).store.length ≤ 2 ∧
    (c9FullStore.add "r").store =
      (if c9FullStore.store.contains "r" then c9FullStore.store
       else if c9FullStore.store.length < 2 then c9FullStore.store ++ ["r"]
       else c9FullStore.store.drop 1 ++ ["r"]) :=
  processed_store_bound_and_fifo 2
    [StoreOp.add "x", StoreOp.containsQuery "x", StoreOp.add "y",
      StoreOp.add "z"] c9FullStore "r" rfl (by decide) (by decide)

/-- Folding _load over records none of which is a metadata record appends
them all to the message list and leaves the metadata untouched. -/
theorem load_fold_no_meta (msgs : List JValue) :
    ∀ (acc : List JValue) (mv : JValue),
    (∀ m ∈ msgs, isMetadataRecord m = false) →
    msgs.foldl loadStep (acc, mv) = (acc ++ msgs, mv) := by
  induction msgs with
  | nil =>
    intro acc mv _
    simp
  | cons m rest ih =>
    intro acc mv h
    have hm : isMetadataRecord m = false := h m (by simp)
    have hstep : loadStep (acc, mv) m = (acc ++ [m], mv) := by
      simp [loadStep, hm]
    rw [List.foldl_cons, hstep,
      ih (acc ++ [m]) mv (fun x hx => h x (by simp [hx]))]
    simp

/-- C10: saving a session and loading the records back returns the same
message list and the same metadata dict, for any session whose message
records are dicts carrying no _type key equal to metadata.  Records are
modelled at the JSON-value level, which is exactly the hypothesis that the
message dicts survive json.dumps and json.loads unchanged. -/
theorem session_save_load_roundtrip (s : StoredSession)
    (_hobj : ∀ m ∈ s.messages, m.isObj = true)
    (hmeta : ∀ m ∈ s.messages, isMetadataRecord m = false) :
    loadRecords (saveRecords s) =
      (s.messages, JValue.obj s.session_metadata) := by
  have hheader :
      loadStep ([], JValue.obj [])
        (JValue.obj
          [("_type", JValue.str "metadata"),
           ("created_at", JValue.str s.created_at),
           ("updated_at", JValue.str s.updated_at),
           ("metadata", JValue.obj s.session_metadata)]) =
        ([], JValue.obj s.session_metadata) := by
    simp [loadStep, isMetadataRecord, jget, List.find?]
  simp only [loadRecords, saveRecords, List.foldl_cons, hheader]
  rw [load_fold_no_meta s.messages [] _ hmeta]
  simp

/-- Concrete instantiation of the save and load round trip. -/
theorem session_save_load_roundtrip_witness :
    loadRecords (saveRecords c10Session) =
      (c10Session.messages, JValue.obj c10Session.session_metadata) :=
  session_save_load_roundtrip c10Session
    (by
      intro m hm
      simp only [c10Session, List.mem_cons, List.not_mem_nil, or_false] at hm
      rcases hm with hm | hm <;> rw [hm] <;> rfl)
    (by
      intro m hm
      simp only [c10Session, List.mem_cons, List.not_mem_nil, or_false] at hm
      rcases hm with hm | hm <;> rw [hm] <;> rfl)

/-- An envelope with a missing or empty relay_msg_id is dropped without
any state change. -/
theorem handleMessage_skip_empty (iden : SubscriberIdentity)
    (st : SubscriberState) (p : RelayPayload)
    (h1 : pyOrStr p.relay_msg_id "" = "") :
    handleMessage iden st p = (st, none) := by
  simp [handleMessage, h1]

/-- An envelope whose relay_msg_id is already in the dedup store is dropped
without any state change. -/
theorem handleMessage_skip_dup (iden : SubscriberIdentity)
    (st : SubscriberState) (p : RelayPayload)
    (h2 : st.processed.contains (pyOrStr p.relay_msg_id "") = true) :
    handleMessage iden st p = (st, none) := by
  simp only [handleMessage]
  split
  · rfl
  · simp [h2]

/-- An envelope caught by the self-loop guard is dropped without any state
change. -/
theorem handleMessage_skip_self (iden : SubscriberIdentity)
    (st : SubscriberState) (p : RelayPayload)
    (h3 : selfSkip iden p = true) :
    handleMessage iden st p = (st, none) := by
  simp only [handleMessage]
  split
  · rfl
  · split
    · rfl
    · simp [h3]

/-- An envelope that passes all three guards is marked processed and
injected. -/
theorem handleMessage_processed (iden : SubscriberIdentity)
    (st : SubscriberState) (p : RelayPayload)
    (h1 : pyOrStr p.relay_msg_id "" ≠ "")
    (h2 : st.processed.contains (pyOrStr p.relay_msg_id "") = false)
    (h3 : selfSkip iden p = false) :
    (handleMessage iden st p).1.processed =
      st.processed.add (pyOrStr p.relay_msg_id "") ∧
    (handleMessage iden st p).2.isSome = true := by
  simp [handleMessage, h1, h2, h3]

/-- Adding a fresh id to a store below its bound appends it with no
eviction. -/
theorem store_add_append (s : ProcessedRelayStore) (id : String)
    (hc : s.store.contains id = false)
    (hlen : s.store.length < s.max_size) :
    (s.add id).store = s.store ++ [id] := by
  simp only [ProcessedRelayStore.add, hc]
  have hng : ¬ s.max_size < s.store.length + 1 := by omega
  simp [hng]

/-- Adding a fresh id to a full store appends it and evicts the front
element. -/
theorem store_add_evict (s : ProcessedRelayStore) (id : String)
    (hc : s.store.contains id = false)
    (hfull : s.store.length = s.max_size) (hpos : 0 < s.max_size) :
    (s.add id).store = s.store.drop 1 ++ [id] := by
  simp only [ProcessedRelayStore.add, hc]
  have hg : s.max_size < s.store.length + 1 := by omega
  have hdrop :
      List.drop (s.store.length + 1 - s.max_size) (s.store ++ [id]) =
        List.drop 1 s.store ++ [id] := by
    have h1 : s.store.length + 1 - s.max_size = 1 := by omega
    rw [h1, List.drop_append_eq_append_drop]
    have h2 : 1 - s.store.length = 0 := by omega
    rw [h2]
    simp
  simp [hg, hdrop]

/-- Handling a concatenation of envelope lists runs the first list, then
the second from the resulting state, concatenating the injections. -/
theorem runAll_append (iden : SubscriberIdentity) :
    ∀ (l1 l2 : List RelayPayload) (st : SubscriberState),
    runAll iden st (l1 ++ l2) =
      ((runAll iden (runAll iden st l1).1 l2).1,
       (runAll iden st l1).2 ++ (runAll iden (runAll iden st l1).1 l2).2) := by
  intro l1
  induction l1 with
  | nil =>
    intro l2 st
    simp [runAll]
  | cons p rest ih =>
    intro l2 st
    have h := ih l2 (handleMessage iden st p).1
    simp only [List.cons_append, runAll]
    simp [h, List.append_assoc]

/-- First pass of the dedup argument: while the total number of envelopes
fits in the store bound, previously stored ids survive (no eviction) and
the id of every envelope that is neither id-less nor self-sent ends up in
the store. -/
theorem runAll_ids_processed (iden : SubscriberIdentity) :
    ∀ (L : List RelayPayload) (st : SubscriberState),
    st.processed.store.length + L.length ≤ st.processed.max_size →
    (∀ x ∈ st.processed.store, x ∈ (runAll iden st L).1.processed.store) ∧
    (∀ p ∈ L, pyOrStr p.relay_msg_id "" ≠ "" → selfSkip iden p = false →
      pyOrStr p.relay_msg_id "" ∈ (runAll iden st L).1.processed.store) := by
  intro L
  induction L with
  | nil =>
    intro st _
    refine ⟨fun x hx => hx, fun p hp => absurd hp (List.not_mem_nil p)⟩
  | cons p rest ih =>
    intro st hbudget
    by_cases h1 : pyOrStr p.relay_msg_id "" = ""
    · have hr := handleMessage_skip_empty iden st p h1
      have hrec := ih st (by simpa using Nat.le_of_succ_le hbudget)
      simp only [runAll, hr]
      refine ⟨hrec.1, ?_⟩
      intro q hq hq1 hq3
      rcases List.mem_cons.mp hq with hq | hq
      · subst hq
        exact absurd h1 hq1
      · exact hrec.2 q hq hq1 hq3
    · by_cases h2 : st.processed.contains (pyOrStr p.relay_msg_id "") = true
      · have hr := handleMessage_skip_dup iden st p h2
        have hrec := ih st (by simpa using Nat.le_of_succ_le hbudget)
        simp only [runAll, hr]
        refine ⟨hrec.1, ?_⟩
        intro q hq hq1 hq3
        rcases List.mem_cons.mp hq with hq | hq
        · subst hq
          have hmem : pyOrStr q.relay_msg_id "" ∈ st.processed.store := by
            have := h2
            simpa [ProcessedRelayStore.contains, List.contains,
              List.elem_iff] using this
          exact hrec.1 _ hmem
        · exact hrec.2 q hq hq1 hq3
      · cases h3 : selfSkip iden p with
        | true =>
          have hr := handleMessage_skip_self iden st p h3
          have hrec := ih st (by simpa using Nat.le_of_succ_le hbudget)
          simp only [runAll, hr]
          refine ⟨hrec.1, ?_⟩
          intro q hq hq1 hq3
          rcases List.mem_cons.mp hq with hq | hq
          · subst hq
            rw [h3] at hq3
            exact absurd hq3 (by simp)
          · exact hrec.2 q hq hq1 hq3
        | false =>
          have hc2 : st.processed.contains (pyOrStr p.relay_msg_id "") =
              false := by
            cases hcv : st.processed.contains (pyOrStr p.relay_msg_id "") with
            | true => exact absurd hcv h2
            | false => rfl
          have hchar := handleMessage_processed iden st p h1 hc2 h3
          have hlen : st.processed.store.length < st.processed.max_size := by
            have : rest.length + 1 ≥ 1 := by omega
            simp only [List.length_cons] at hbudget
            omega
          have hstore :
              (handleMessage iden st p).1.processed.store =
                st.processed.store ++ [pyOrStr p.relay_msg_id ""] := by
            rw [hchar.1]
            exact store_add_append st.processed _ hc2 hlen
          have hmax :
              (handleMessage iden st p).1.processed.max_size =
                st.processed.max_size := by
            rw [hchar.1]
            rfl
          have hrec := ih (handleMessage iden st p).1 (by
            rw [hstore, hmax]
            simp only [List.length_append, List.length_cons, List.length_nil]
            simp only [List.length_cons] at hbudget
            omega)
          simp only [runAll]
          refine ⟨?_, ?_⟩
          · intro x hx
            exact hrec.1 x (by rw [hstore]; exact List.mem_append_left _ hx)
          · intro q hq hq1 hq3
            rcases List.mem_cons.mp hq with hq | hq
            · subst hq
              refine hrec.1 _ ?_
              rw [hstore]
              exact List.mem_append_right _ (by simp)
            · exact hrec.2 q hq hq1 hq3

/-- Replay pass of the dedup argument: if the id of every non-id-less,
non-self envelope of the list is already in the store, handling the whole
list injects nothing and leaves the store unchanged. -/
theorem runAll_no_new_injections (iden : SubscriberIdentity) :
    ∀ (L : List RelayPayload) (st : SubscriberState),
    (∀ p ∈ L, pyOrStr p.relay_msg_id "" ≠ "" → selfSkip iden p = false →
      pyOrStr p.relay_msg_id "" ∈ st.processed.store) →
    (runAll iden st L).2 = [] := by
  intro L
  induction L with
  | nil =>
    intro st _
    rfl
  | cons p rest ih =>
    intro st h
    by_cases h1 : pyOrStr p.relay_msg_id "" = ""
    · have hr := handleMessage_skip_empty iden st p h1
      simp only [runAll, hr]
      simpa using ih st (fun q hq => h q (List.mem_cons_of_mem p hq))
    · cases h3 : selfSkip iden p with
      | true =>
        have hr := handleMessage_skip_self iden st p h3
        simp only [runAll, hr]
        simpa using ih st (fun q hq => h q (List.mem_cons_of_mem p hq))
      | false =>
        have hmem : pyOrStr p.relay_msg_id "" ∈ st.processed.store :=
          h p (List.mem_cons_self p rest) h1 h3
        have h2 : st.processed.contains (pyOrStr p.relay_msg_id "") = true :=
          by simpa [ProcessedRelayStore.contains, List.contains,
            List.elem_iff] using hmem
        have hr := handleMessage_skip_dup iden st p h2
        simp only [runAll, hr]
        simpa using ih st (fun q hq => h q (List.mem_cons_of_mem p hq))

/-- C5 amended: for every sequence of at most 5000 envelopes processed by a
fresh subscriber, re-reading the relay log from offset 0 and handling
every envelope again produces zero additional inbound injections.  The
bound is the dedup store max_size: beyond 5000 distinct processed ids the
bounded store evicts the oldest ids and a replay can re-inject them (see
the counterexample). -/
theorem relay_dedup_replay (iden : SubscriberIdentity)
    (L : List RelayPayload) (h : L.length ≤ 5000) :
    (runAll iden (runAll iden initialSubscriberState L).1 L).2 = [] := by
  have hfirst := runAll_ids_processed iden L initialSubscriberState
    (by simpa [initialSubscriberState] using h)
  exact runAll_no_new_injections iden L _
    (fun p hp h1 h3 => hfirst.2 p hp h1 h3)

/-- Concrete instantiation of the replay theorem: two envelopes, processed
then replayed, yield no second injections. -/
theorem relay_dedup_replay_witness :
    (runAll c5WitnessIden
      (runAll c5WitnessIden initialSubscriberState c5WitnessEnvs).1
      c5WitnessEnvs).2 = [] :=
  relay_dedup_replay c5WitnessIden c5WitnessEnvs (by decide)

/-- Counterexample ids are nonempty. -/
theorem cexId_ne_empty (i : Nat) : cexId i ≠ "" := by
  intro h
  have hdata := congrArg String.data h
  simp [cexId] at hdata

/-- Counterexample ids are distinct. -/
theorem cexId_inj {i j : Nat} (h : cexId i = cexId j) : i = j := by
  have hdata := congrArg String.data h
  simp only [cexId] at hdata
  have hl := congrArg List.length hdata
  simpa using hl

/-- Reading the relay id of a counterexample envelope. -/
theorem cexPayload_id (i : Nat) :
    pyOrStr (cexPayload i).relay_msg_id "" = cexId i := by
  simp [cexPayload, pyOrStr, cexId_ne_empty i]

/-- Counterexample envelopes are not self-sent. -/
theorem cexPayload_not_self (i : Nat) :
    selfSkip cexIden (cexPayload i) = false := by
  simp [selfSkip, cexPayload, cexIden, pyOrStr]

/-- The dedup store after the first k counterexample envelopes: the last
5000 of the first k ids, in order. -/
theorem cex_store_formula : ∀ k : Nat,
    (runAll cexIden initialSubscriberState
      ((List.range k).map cexPayload)).1.processed.store =
      ((List.range k).map cexId).drop (k - 5000) ∧
    (runAll cexIden initialSubscriberState
      ((List.range k).map cexPayload)).1.processed.max_size = 5000 := by
  intro k
  induction k with
  | zero => simp [runAll, initialSubscriberState]
  | succ n ih =>
    obtain ⟨ihs, ihm⟩ := ih
    rw [List.range_succ, List.map_append, List.map_append, runAll_append]
    simp only [List.map_cons, List.map_nil]
    have hid := cexPayload_id n
    have hne : pyOrStr (cexPayload n).relay_msg_id "" ≠ "" := by
      rw [hid]
      exact cexId_ne_empty n
    have hnotmem :
        cexId n ∉ (runAll cexIden initialSubscriberState
          ((List.range n).map cexPayload)).1.processed.store := by
      rw [ihs]
      intro hmem
      have hmem2 := List.drop_subset _ _ hmem
      obtain ⟨j, hj, hje⟩ := List.mem_map.mp hmem2
      have := cexId_inj hje
      subst this
      exact absurd (List.mem_range.mp hj) (lt_irrefl j)
    have h2 :
        (runAll cexIden initialSubscriberState
          ((List.range n).map cexPayload)).1.processed.contains
          (pyOrStr (cexPayload n).relay_msg_id "") = false := by
      rw [hid]
      cases hcv : (runAll cexIden initialSubscriberState
          ((List.range n).map cexPayload)).1.processed.contains (cexId n) with
      | true =>
        have : cexId n ∈ (runAll cexIden initialSubscriberState
            ((List.range n).map cexPayload)).1.processed.store := by
          simpa [ProcessedRelayStore.contains, List.contains, List.elem_iff]
            using hcv
        exact absurd this hnotmem
      | false => rfl
    have hchar := handleMessage_processed cexIden
      (runAll cexIden initialSubscriberState
        ((List.range n).map cexPayload)).1 (cexPayload n) hne h2
      (cexPayload_not_self n)
    have hsingle :
        (runAll cexIden (runAll cexIden initialSubscriberState
          ((List.range n).map cexPayload)).1 [cexPayload n]).1 =
          (handleMessage cexIden (runAll cexIden initialSubscriberState
            ((List.range n).map cexPayload)).1 (cexPayload n)).1 := by
      simp [runAll]
    have hlenD : (((List.range n).map cexId).drop (n - 5000)).length =
        n - (n - 5000) := by
      simp
    rw [hsingle, hchar.1, hid]
    by_cases hsmall : n < 5000
    · have hd0 : n - 5000 = 0 := by omega
      have happend := store_add_append
        (runAll cexIden initialSubscriberState
          ((List.range n).map cexPayload)).1.processed (cexId n)
        (by rw [hid] at h2; exact h2)
        (by rw [ihs, ihm, hlenD]; omega)
      constructor
      · rw [happend, ihs, hd0]
        have hd1 : n + 1 - 5000 = 0 := by omega
        rw [hd1]
        simp
      · simpa [ProcessedRelayStore.add] using ihm
    · have hfull := store_add_evict
        (runAll cexIden initialSubscriberState
          ((List.range n).map cexPayload)).1.processed (cexId n)
        (by rw [hid] at h2; exact h2)
        (by rw [ihs, ihm, hlenD]; omega)
        (by rw [ihm]; omega)
      constructor
      · rw [hfull, ihs, List.drop_drop]
        have hd1 : n - 5000 + 1 = n + 1 - 5000 := by omega
        rw [hd1]
        rw [List.drop_append_eq_append_drop]
        have hd2 : n + 1 - 5000 - ((List.range n).map cexId).length = 0 := by
          simp only [List.length_map, List.length_range]
          omega
        rw [hd2]
        simp
      · simpa [ProcessedRelayStore.add] using ihm

/-- A run whose first envelope is injected produces a nonempty injection
list. -/
theorem runAll_cons_ne_nil (iden : SubscriberIdentity) (st : SubscriberState)
    (p : RelayPayload) (rest : List RelayPayload) (m : InboundMessage)
    (hm : (handleMessage iden st p).2 = some m) :
    (runAll iden st (p :: rest)).2 ≠ [] := by
  simp [runAll, hm]

/-- C5 counterexample: after 5001 envelopes with distinct relay ids the
bounded dedup store (max_size 5000) has evicted the first id, so replaying
the relay log from offset 0 injects again — the replay produces at least
one additional inbound injection, and the first relay id leads to two
injections over the subscriber lifetime. -/
theorem relay_dedup_counterexample :
    cexEnvs.length = 5001 ∧
    (runAll cexIden (runAll cexIden initialSubscriberState cexEnvs).1
      cexEnvs).2 ≠ [] := by
  have h50 : (5001 : ℕ) = 5000 + 1 := by norm_num
  have hdecompR : List.range 5001 = 0 :: (List.range 5000).map Nat.succ := by
    rw [h50, List.range_succ_eq_map]
  have hdecompM : (List.range 5001).map cexPayload = cexPayload 0 ::
      ((List.range 5000).map Nat.succ).map cexPayload := by
    rw [hdecompR, List.map_cons]
  constructor
  · simp only [cexEnvs, List.length_map, List.length_range]
  · simp only [cexEnvs]
    have hs := (cex_store_formula 5001).1
  -- the first id has been evicted from the store
    have hnotmem : cexId 0 ∉ (runAll cexIden initialSubscriberState
        ((List.range 5001).map cexPayload)).1.processed.store := by
      rw [hs]
      have h1 : (5001 : ℕ) - 5000 = 1 := by norm_num
      rw [h1, hdecompR]
      simp only [List.map_cons, List.drop_succ_cons, List.drop_zero,
        List.map_map]
      intro hmem
      obtain ⟨j, hj, hje⟩ := List.mem_map.mp hmem
      have := cexId_inj hje
      omega
    have h2 : (runAll cexIden initialSubscriberState
        ((List.range 5001).map cexPayload)).1.processed.contains
        (pyOrStr (cexPayload 0).relay_msg_id "") = false := by
      rw [cexPayload_id 0]
      cases hcv : (runAll cexIden initialSubscriberState
          ((List.range 5001).map cexPayload)).1.processed.contains
          (cexId 0) with
      | true =>
        have : cexId 0 ∈ (runAll cexIden initialSubscriberState
            ((List.range 5001).map cexPayload)).1.processed.store := by
          simpa [ProcessedRelayStore.contains, List.contains, List.elem_iff]
            using hcv
        exact absurd this hnotmem
      | false => rfl
    have hne : pyOrStr (cexPayload 0).relay_msg_id "" ≠ "" := by
      rw [cexPayload_id 0]
      exact cexId_ne_empty 0
    have hchar := handleMessage_processed cexIden
      (runAll cexIden initialSubscriberState
        ((List.range 5001).map cexPayload)).1 (cexPayload 0) hne h2
      (cexPayload_not_self 0)
    obtain ⟨m, hm⟩ := Option.isSome_iff_exists.mp hchar.2
    nth_rewrite 2 [hdecompM]
    exact runAll_cons_ne_nil cexIden _ (cexPayload 0) _ m hm

end Nanobot
